import Mathlib

/-!
# Verification of the CPU stress/benchmark engine of resource-checker

Shallow embedding of the multi-process CPU stress-test core found in
src/gui/stress_test_window.py: the worker loop (operation accounting and
counter flushing), the performance-monitor sampling tick (delta/score
computation and bounded statistics), and the controller lifecycle
(start/stop of the worker pool).

Python floats for times and scores are modelled with exact rationals; the
shared mp.Value counter of C type Q (unsigned 64-bit) is modelled as a
natural number reduced modulo 2^64 on every write.
-/

set_option autoImplicit false

namespace StressTest

/-! ## Workload constants (stress_test_window.py, lines 17-26, 54) -/

def INT_INNER : ℕ := 400

def BIT_INNER : ℕ := 300

def FLOAT_INNER : ℕ := 300

def WEIGHT_INT : ℚ := 1.0

def WEIGHT_BIT : ℚ := 1.0

def WEIGHT_FLOAT : ℚ := 1.0

def FLUSH_THRESHOLD : ℕ := 50000

/-- Modulus of the shared counter: mp.Value with C type Q is unsigned 64-bit. -/
def UINT64_MOD : ℕ := 2 ^ 64

/-- batch_ops = int(INT_INNER*WEIGHT_INT + BIT_INNER*WEIGHT_BIT + FLOAT_INNER*WEIGHT_FLOAT)
(lines 77-81).  Python int() truncates toward zero; the value is non-negative,
so this is the floor of the rational weighted sum. -/
def batch_ops : ℕ :=
  (⌊(INT_INNER : ℚ) * WEIGHT_INT + (BIT_INNER : ℚ) * WEIGHT_BIT +
      (FLOAT_INNER : ℚ) * WEIGHT_FLOAT⌋).toNat

/-! ## Worker accounting state (_process_stress_worker, lines 52-91)

The arithmetic scratch values (acc, x, floats, angle) do not feed back into
the counters; only local_count and the shared counter value are modelled. -/

structure WorkerState where
  local_count : ℕ
  shared : ℕ
  deriving Repr, DecidableEq

/-- One iteration of the worker while-loop, restricted to its counter effect
(lines 77-87): add batch_ops to local_count; when it reaches FLUSH_THRESHOLD,
add it to the shared counter under the counter's lock and reset it to zero. -/
def worker_batch (s : WorkerState) : WorkerState :=
  if FLUSH_THRESHOLD ≤ s.local_count + batch_ops then
    { local_count := 0, shared := (s.shared + (s.local_count + batch_ops)) % UINT64_MOD }
  else
    { local_count := s.local_count + batch_ops, shared := s.shared }

/-- The remainder flush executed after the loop observes the stop event
(lines 88-91): a nonzero local_count is added to the shared counter once;
a zero remainder is skipped. -/
def worker_final_flush (s : WorkerState) : WorkerState :=
  if s.local_count ≠ 0 then
    { local_count := 0, shared := (s.shared + s.local_count) % UINT64_MOD }
  else s

/-- Worker entry state: local_count = 0 (line 52) and a fresh shared counter
created by the controller with value 0 (line 201). -/
def worker_init : WorkerState := { local_count := 0, shared := 0 }

/-- The whole worker execution in which the stop event is observed after
exactly B completed batches: B loop iterations, then the remainder flush. -/
def worker_run (B : ℕ) : WorkerState := worker_final_flush (worker_batch^[B] worker_init)

/-! ## Worker accounting lemmas -/

lemma batch_ops_eq : batch_ops = 1000 := by
  have h : (INT_INNER : ℚ) * WEIGHT_INT + (BIT_INNER : ℚ) * WEIGHT_BIT +
      (FLOAT_INNER : ℚ) * WEIGHT_FLOAT = ((1000 : ℤ) : ℚ) := by
    norm_num [INT_INNER, BIT_INNER, FLOAT_INNER, WEIGHT_INT, WEIGHT_BIT, WEIGHT_FLOAT]
  unfold batch_ops
  rw [h, Int.floor_intCast]
  rfl

lemma worker_batch_iterate (B : ℕ) :
    (worker_batch^[B] worker_init).local_count = 1000 * (B % 50) ∧
    (worker_batch^[B] worker_init).shared = (50000 * (B / 50)) % UINT64_MOD := by
  induction B with
  | zero => simp [worker_init]
  | succ n ih =>
    obtain ⟨hl, hs⟩ := ih
    rw [Function.iterate_succ_apply']
    simp only [worker_batch, hl, hs, batch_ops_eq]
    by_cases h : n % 50 = 49
    · have h50 : FLUSH_THRESHOLD ≤ 1000 * (n % 50) + 1000 := by
        rw [h]; decide
      rw [if_pos h50]
      have h1 : (n + 1) % 50 = 0 := by omega
      have h2 : (n + 1) / 50 = n / 50 + 1 := by omega
      refine ⟨by simp [h1], ?_⟩
      show ((50000 * (n / 50)) % UINT64_MOD + (1000 * (n % 50) + 1000)) % UINT64_MOD
          = (50000 * ((n + 1) / 50)) % UINT64_MOD
      rw [h2, h]
      have hlt : (50000 : ℕ) < UINT64_MOD := by decide
      calc ((50000 * (n / 50)) % UINT64_MOD + (1000 * 49 + 1000)) % UINT64_MOD
          = ((50000 * (n / 50)) % UINT64_MOD + 50000 % UINT64_MOD) % UINT64_MOD := by
            rw [Nat.mod_eq_of_lt hlt]
        _ = (50000 * (n / 50) + 50000) % UINT64_MOD := by
            rw [← Nat.add_mod]
        _ = (50000 * (n / 50 + 1)) % UINT64_MOD := by ring_nf
    · have hlt : n % 50 < 50 := Nat.mod_lt _ (by norm_num)
      have h50 : ¬ FLUSH_THRESHOLD ≤ 1000 * (n % 50) + 1000 := by
        unfold FLUSH_THRESHOLD; omega
      rw [if_neg h50]
      have h1 : (n + 1) % 50 = n % 50 + 1 := by omega
      have h2 : (n + 1) / 50 = n / 50 := by omega
      exact ⟨by rw [h1]; ring, by rw [h2]⟩

lemma worker_run_shared (B : ℕ) :
    (worker_run B).shared = (batch_ops * B) % UINT64_MOD := by
  obtain ⟨hl, hs⟩ := worker_batch_iterate B
  unfold worker_run worker_final_flush
  rw [batch_ops_eq]
  by_cases h : (worker_batch^[B] worker_init).local_count ≠ 0
  · rw [if_pos h]
    simp only [hs, hl]
    have hmod : 1000 * (B % 50) < UINT64_MOD := by
      have : B % 50 < 50 := Nat.mod_lt _ (by norm_num)
      unfold UINT64_MOD; omega
    calc ((50000 * (B / 50)) % UINT64_MOD + 1000 * (B % 50)) % UINT64_MOD
        = ((50000 * (B / 50)) % UINT64_MOD + (1000 * (B % 50)) % UINT64_MOD)
            % UINT64_MOD := by rw [Nat.mod_eq_of_lt hmod]
      _ = (50000 * (B / 50) + 1000 * (B % 50)) % UINT64_MOD := by rw [← Nat.add_mod]
      _ = (1000 * B) % UINT64_MOD := by
          congr 1
          have := Nat.div_add_mod B 50
          omega
  · rw [if_neg h]
    push_neg at h
    rw [hs]
    congr 1
    rw [hl] at h
    have hB : B % 50 = 0 := by omega
    have := Nat.div_add_mod B 50
    omega

lemma iterate_local_count_49 : (worker_batch^[49] worker_init).local_count = 49000 := by
  have h := (worker_batch_iterate 49).1
  have e : (1000 : ℕ) * (49 % 50) = 49000 := by norm_num
  rw [e] at h
  exact h

lemma iterate_local_count_3 : (worker_batch^[3] worker_init).local_count = 3000 := by
  have h := (worker_batch_iterate 3).1
  have e : (1000 : ℕ) * (3 % 50) = 3000 := by norm_num
  rw [e] at h
  exact h

/-- C1: each completed batch adds exactly
int(INT_INNER*WEIGHT_INT + BIT_INNER*WEIGHT_BIT + FLOAT_INNER*WEIGHT_FLOAT) = 1000
abstract operations to the process-local counter; the local counter is added to
the shared counter (under its lock) exactly when it reaches the 50,000-op flush
threshold and is then reset to zero; on stop any nonzero remainder is flushed
exactly once, so at worker exit the shared counter has been incremented by
exactly 1000 times the number of completed batches (modulo the 64-bit width of
the shared counter; exactly, whenever the total fits in 64 bits). -/
theorem c1_worker_operation_accounting :
    batch_ops = 1000 ∧
    (∀ B : ℕ, (worker_run B).shared = (batch_ops * B) % UINT64_MOD) ∧
    (∀ B : ℕ, batch_ops * B < UINT64_MOD → (worker_run B).shared = batch_ops * B) ∧
    (∀ B : ℕ,
      (worker_batch^[B] worker_init).local_count + batch_ops = FLUSH_THRESHOLD →
        worker_batch (worker_batch^[B] worker_init) =
          { local_count := 0,
            shared := ((worker_batch^[B] worker_init).shared + FLUSH_THRESHOLD)
              % UINT64_MOD }) ∧
    (∀ B : ℕ,
      (worker_batch^[B] worker_init).local_count + batch_ops ≠ FLUSH_THRESHOLD →
        worker_batch (worker_batch^[B] worker_init) =
          { local_count := (worker_batch^[B] worker_init).local_count + batch_ops,
            shared := (worker_batch^[B] worker_init).shared }) := by
  refine ⟨batch_ops_eq, worker_run_shared, ?_, ?_, ?_⟩
  · intro B h
    rw [worker_run_shared B, Nat.mod_eq_of_lt h]
  · intro B h
    simp only [worker_batch]
    rw [if_pos (le_of_eq h.symm), h]
  · intro B h
    obtain ⟨hl, -⟩ := worker_batch_iterate B
    have hmod : B % 50 < 50 := Nat.mod_lt _ (by norm_num)
    have hle : ¬ FLUSH_THRESHOLD ≤ (worker_batch^[B] worker_init).local_count + batch_ops := by
      rw [hl, batch_ops_eq] at h ⊢
      unfold FLUSH_THRESHOLD at h ⊢
      omega
    simp only [worker_batch]
    rw [if_neg hle]

theorem c1_worker_operation_accounting_witness :
    (batch_ops * 60 < UINT64_MOD ∧ (worker_run 60).shared = batch_ops * 60) ∧
    ((worker_batch^[49] worker_init).local_count + batch_ops = FLUSH_THRESHOLD ∧
      worker_batch (worker_batch^[49] worker_init) =
        { local_count := 0,
          shared := ((worker_batch^[49] worker_init).shared + FLUSH_THRESHOLD)
            % UINT64_MOD }) ∧
    ((worker_batch^[3] worker_init).local_count + batch_ops ≠ FLUSH_THRESHOLD ∧
      worker_batch (worker_batch^[3] worker_init) =
        { local_count := (worker_batch^[3] worker_init).local_count + batch_ops,
          shared := (worker_batch^[3] worker_init).shared }) := by
  have h60 : batch_ops * 60 < UINT64_MOD := by
    rw [batch_ops_eq]; decide
  have h49 : (worker_batch^[49] worker_init).local_count + batch_ops = FLUSH_THRESHOLD := by
    rw [iterate_local_count_49, batch_ops_eq]; rfl
  have h3 : (worker_batch^[3] worker_init).local_count + batch_ops ≠ FLUSH_THRESHOLD := by
    rw [iterate_local_count_3, batch_ops_eq]; decide
  exact ⟨⟨h60, c1_worker_operation_accounting.2.2.1 60 h60⟩,
    ⟨h49, c1_worker_operation_accounting.2.2.2.1 49 h49⟩,
    ⟨h3, c1_worker_operation_accounting.2.2.2.2 3 h3⟩⟩

/-! ## Performance monitor (_performance_monitor, lines 278-327)

Monitor-relevant fields of the CPUStressTestWindow object.  Times and scores
(Python floats) are modelled as exact rationals; the aggregated counter
reading total_ops and last_total_ops (Python ints) as integers. -/

structure MonitorState where
  last_total_ops : ℤ
  last_ops_time : Option ℚ
  peak_score : ℚ
  recent_scores : List ℚ
  performance_scores : List ℚ
  deriving Repr, DecidableEq

/-- ops_diff = max(0, total_ops - self.last_total_ops)  (line 301). -/
def ops_delta (total_ops last_total_ops : ℤ) : ℤ :=
  max 0 (total_ops - last_total_ops)

/-- ops_per_sec = ops_diff / elapsed if elapsed > 0 else 0  (line 302). -/
def ops_per_sec (d : ℤ) (elapsed : ℚ) : ℚ :=
  if 0 < elapsed then (d : ℚ) / elapsed else 0

/-- power_score = ops_per_sec / 1_000_000  (line 305), with the delta and rate
of lines 301-302 inlined. -/
def power_score_of (total_ops last_total_ops : ℤ) (elapsed : ℚ) : ℚ :=
  ops_per_sec (ops_delta total_ops last_total_ops) elapsed / 1000000

/-- lst.append(x) followed by lst.pop(0) when len(lst) > bound
(lines 310-312 with bound 5, lines 318-320 with bound 100). -/
def push_bounded (l : List ℚ) (x : ℚ) (bound : ℕ) : List ℚ :=
  if bound < (l ++ [x]).length then (l ++ [x]).tail else l ++ [x]

/-- One executed sampling tick: the body of lines 287-322 once the 2-second
cadence guard has fired.  Reading the counters yields total_ops; the tick
either stores the baseline and emits nothing (lines 295-298, when
last_ops_time is None) or computes the score, updates peak / windows /
baselines and emits the score (lines 300-322). -/
def monitor_tick (s : MonitorState) (current_time : ℚ) (total_ops : ℤ) :
    MonitorState × Option ℚ :=
  match s.last_ops_time with
  | none =>
      ({ s with last_ops_time := some current_time, last_total_ops := total_ops }, none)
  | some t =>
      ({ last_total_ops := total_ops,
         last_ops_time := some current_time,
         peak_score :=
           if s.peak_score < power_score_of total_ops s.last_total_ops (current_time - t)
           then power_score_of total_ops s.last_total_ops (current_time - t)
           else s.peak_score,
         recent_scores :=
           push_bounded s.recent_scores
             (power_score_of total_ops s.last_total_ops (current_time - t)) 5,
         performance_scores :=
           push_bounded s.performance_scores
             (power_score_of total_ops s.last_total_ops (current_time - t)) 100 },
       some (power_score_of total_ops s.last_total_ops (current_time - t)))

/-- The monitor-relevant state left by start_test (lines 188-211): the score
history is cleared, last_total_ops = 0, last_ops_time = time.time() (the start
time), peak_score = 0.0 and the sustain window is cleared — all before the
monitor thread is started at line 220. -/
def monitor_state_after_start (now : ℚ) : MonitorState :=
  { last_total_ops := 0
    last_ops_time := some now
    peak_score := 0
    recent_scores := []
    performance_scores := [] }

/-- A sequence of executed sampling ticks, each fed the sampled wall-clock
time and aggregated counter reading; returns the final state and the list of
emitted samples in temporal order. -/
def monitor_run (s : MonitorState) : List (ℚ × ℤ) → MonitorState × List ℚ
  | [] => (s, [])
  | (t, n) :: rest =>
      ((monitor_run (monitor_tick s t n).1 rest).1,
        (monitor_tick s t n).2.toList ++ (monitor_run (monitor_tick s t n).1 rest).2)

/-- The sustainability display computation of _update_performance_display
(lines 340-350): reached only when performance_scores is nonempty, and the
percentage is computed only when peak_score > 0 and recent_scores is nonempty;
otherwise the label is left untouched (None here). -/
def sustain_display (performance_scores : List ℚ) (peak_score : ℚ)
    (recent_scores : List ℚ) : Option ℚ :=
  if performance_scores ≠ [] then
    if 0 < peak_score ∧ recent_scores ≠ [] then
      some ((recent_scores.sum / (recent_scores.length : ℚ)) / peak_score * 100)
    else none
  else none

/-! ## Monitor lemmas -/

lemma ops_delta_nonneg (total last : ℤ) : 0 ≤ ops_delta total last :=
  le_max_left 0 _

lemma ops_per_sec_nonneg (total last : ℤ) (elapsed : ℚ) :
    0 ≤ ops_per_sec (ops_delta total last) elapsed := by
  unfold ops_per_sec
  split
  · next h =>
    apply div_nonneg _ (le_of_lt h)
    exact_mod_cast ops_delta_nonneg total last
  · exact le_refl 0

lemma power_score_nonneg (total last : ℤ) (elapsed : ℚ) :
    0 ≤ power_score_of total last elapsed := by
  unfold power_score_of
  have := ops_per_sec_nonneg total last elapsed
  positivity

lemma monitor_tick_emitted_nonneg (s : MonitorState) (t : ℚ) (n : ℤ) (sc : ℚ)
    (h : (monitor_tick s t n).2 = some sc) : 0 ≤ sc := by
  unfold monitor_tick at h
  cases hlt : s.last_ops_time with
  | none => rw [hlt] at h; simp at h
  | some t0 =>
    rw [hlt] at h
    simp only [Option.some.injEq] at h
    rw [← h]
    exact power_score_nonneg _ _ _

lemma monitor_run_emitted_nonneg (s : MonitorState) (inputs : List (ℚ × ℤ)) :
    ∀ x ∈ (monitor_run s inputs).2, 0 ≤ x := by
  induction inputs generalizing s with
  | nil => intro x hx; simp [monitor_run] at hx
  | cons p rest ih =>
    obtain ⟨t, n⟩ := p
    intro x hx
    simp only [monitor_run, List.mem_append] at hx
    rcases hx with hx | hx
    · cases hemit : (monitor_tick s t n).2 with
      | none => rw [hemit] at hx; simp at hx
      | some sc =>
        rw [hemit] at hx
        simp only [Option.toList_some, List.mem_singleton] at hx
        rw [hx]
        exact monitor_tick_emitted_nonneg s t n sc hemit
    · exact ih _ x hx

lemma monitor_tick_peak_mono (s : MonitorState) (t : ℚ) (n : ℤ) :
    s.peak_score ≤ (monitor_tick s t n).1.peak_score := by
  unfold monitor_tick
  cases hlt : s.last_ops_time with
  | none => simp
  | some t0 =>
    simp only
    split
    · next h => exact le_of_lt h
    · exact le_refl _

lemma monitor_run_peak (s : MonitorState) (inputs : List (ℚ × ℤ)) :
    (monitor_run s inputs).1.peak_score =
      (monitor_run s inputs).2.foldl max s.peak_score := by
  induction inputs generalizing s with
  | nil => simp [monitor_run]
  | cons p rest ih =>
    obtain ⟨t, n⟩ := p
    simp only [monitor_run, List.foldl_append]
    rw [ih]
    congr 1
    unfold monitor_tick
    cases hlt : s.last_ops_time with
    | none => simp
    | some t0 =>
      simp only [Option.toList_some, List.foldl_cons, List.foldl_nil]
      rcases lt_or_le s.peak_score (power_score_of n s.last_total_ops (t - t0)) with h | h
      · rw [if_pos h, max_eq_right (le_of_lt h)]
      · rw [if_neg (not_lt.mpr h), max_eq_left h]

lemma foldl_max_mem_or_init (l : List ℚ) (a : ℚ) :
    l.foldl max a = a ∨ l.foldl max a ∈ l := by
  induction l generalizing a with
  | nil => exact Or.inl rfl
  | cons x xs ih =>
    simp only [List.foldl_cons]
    rcases ih (max a x) with h | h
    · rcases le_total a x with hax | hax
      · right
        rw [h, max_eq_right hax]
        exact List.mem_cons_self x xs
      · left
        rw [h, max_eq_left hax]
    · right
      exact List.mem_cons_of_mem x h

lemma le_foldl_max (l : List ℚ) (a : ℚ) : a ≤ l.foldl max a := by
  induction l generalizing a with
  | nil => exact le_refl a
  | cons x xs ih =>
    simp only [List.foldl_cons]
    exact le_trans (le_max_left a x) (ih (max a x))

lemma mem_le_foldl_max (l : List ℚ) (a : ℚ) : ∀ y ∈ l, y ≤ l.foldl max a := by
  induction l generalizing a with
  | nil => intro y hy; simp at hy
  | cons x xs ih =>
    intro y hy
    simp only [List.foldl_cons]
    rcases List.mem_cons.mp hy with hy | hy
    · rw [hy]
      exact le_trans (le_max_right a x) (le_foldl_max xs (max a x))
    · exact ih (max a x) y hy

lemma push_bounded_length_le (l : List ℚ) (x : ℚ) (b : ℕ) (h : l.length ≤ b) :
    (push_bounded l x b).length ≤ b := by
  unfold push_bounded
  split
  · simp only [List.length_tail, List.length_append, List.length_singleton]
    omega
  · next hle =>
    simp only [List.length_append, List.length_singleton] at hle ⊢
    omega

lemma push_bounded_evict (l : List ℚ) (x : ℚ) (b : ℕ) (hne : l ≠ [])
    (h : b < (l ++ [x]).length) : push_bounded l x b = l.tail ++ [x] := by
  unfold push_bounded
  rw [if_pos h]
  cases l with
  | nil => exact absurd rfl hne
  | cons y ys => rfl

lemma monitor_tick_history_bound (s : MonitorState) (t : ℚ) (n : ℤ)
    (h : s.performance_scores.length ≤ 100) :
    (monitor_tick s t n).1.performance_scores.length ≤ 100 := by
  unfold monitor_tick
  cases hlt : s.last_ops_time with
  | none => exact h
  | some t0 => exact push_bounded_length_le _ _ _ h

lemma monitor_tick_window_bound (s : MonitorState) (t : ℚ) (n : ℤ)
    (h : s.recent_scores.length ≤ 5) :
    (monitor_tick s t n).1.recent_scores.length ≤ 5 := by
  unfold monitor_tick
  cases hlt : s.last_ops_time with
  | none => exact h
  | some t0 => exact push_bounded_length_le _ _ _ h

/-! ## Theorems for claims C2, C3, C4 -/

/-- C2: every derived metric of the sampling tick is division-safe and
non-negative: ops_delta is clamped at 0, ops_per_sec is 0 whenever
elapsed ≤ 0 (no division by zero), the score is always ≥ 0 (both as a formula
and for every sample the tick actually emits), and the sustainability
percentage is computed only when peak_score > 0 and the sustain window is
nonempty, otherwise omitted. -/
theorem c2_tick_division_safety :
    (∀ total last : ℤ, 0 ≤ ops_delta total last) ∧
    (∀ (total last : ℤ) (elapsed : ℚ), elapsed ≤ 0 →
      ops_per_sec (ops_delta total last) elapsed = 0) ∧
    (∀ (total last : ℤ) (elapsed : ℚ), 0 ≤ power_score_of total last elapsed) ∧
    (∀ (s : MonitorState) (t : ℚ) (n : ℤ) (sc : ℚ),
      (monitor_tick s t n).2 = some sc → 0 ≤ sc) ∧
    (∀ (ps : List ℚ) (pk : ℚ) (rc : List ℚ),
      sustain_display ps pk rc ≠ none → 0 < pk ∧ rc ≠ []) ∧
    (∀ (ps : List ℚ) (pk : ℚ) (rc : List ℚ),
      ¬ (0 < pk ∧ rc ≠ []) → sustain_display ps pk rc = none) := by
  refine ⟨ops_delta_nonneg, ?_, power_score_nonneg, monitor_tick_emitted_nonneg, ?_, ?_⟩
  · intro total last elapsed h
    unfold ops_per_sec
    rw [if_neg (not_lt.mpr h)]
  · intro ps pk rc h
    unfold sustain_display at h
    by_cases h1 : ps ≠ []
    · rw [if_pos h1] at h
      by_cases h2 : 0 < pk ∧ rc ≠ []
      · exact h2
      · rw [if_neg h2] at h
        exact absurd rfl h
    · rw [if_neg h1] at h
      exact absurd rfl h
  · intro ps pk rc h
    unfold sustain_display
    by_cases h1 : ps ≠ []
    · rw [if_pos h1, if_neg h]
    · rw [if_neg h1]

theorem c2_tick_division_safety_witness :
    ((-1 : ℚ) ≤ 0 ∧ ops_per_sec (ops_delta 3 7) (-1) = 0) ∧
    ((monitor_tick (monitor_state_after_start 0) 2 1000000).2 = some (1/2) ∧
      (0 : ℚ) ≤ 1/2) ∧
    (sustain_display [1/2] (1/2) [1/2] ≠ none ∧
      ((0 : ℚ) < 1/2 ∧ ([1/2] : List ℚ) ≠ [])) ∧
    (¬ ((0 : ℚ) < 0 ∧ ([1/2] : List ℚ) ≠ []) ∧
      sustain_display [1/2] 0 [1/2] = none) := by
  have htick : (monitor_tick (monitor_state_after_start 0) 2 1000000).2 = some (1/2) := by
    norm_num [monitor_tick, monitor_state_after_start, power_score_of, ops_per_sec,
      ops_delta]
  have hsus : sustain_display [1/2] (1/2) [1/2] ≠ none := by
    norm_num [sustain_display]
    exact fun h => Option.noConfusion h
  have hneg : ¬ ((0 : ℚ) < 0 ∧ ([1/2] : List ℚ) ≠ []) := by
    intro h
    exact lt_irrefl 0 h.1
  exact ⟨⟨by norm_num, c2_tick_division_safety.2.1 3 7 (-1) (by norm_num)⟩,
    ⟨htick, c2_tick_division_safety.2.2.2.1 (monitor_state_after_start 0) 2 1000000
      (1/2) htick⟩,
    ⟨hsus, c2_tick_division_safety.2.2.2.2.1 [1/2] (1/2) [1/2] hsus⟩,
    ⟨hneg, c2_tick_division_safety.2.2.2.2.2 [1/2] 0 [1/2] hneg⟩⟩

/-- C3: session-statistics invariants preserved by every sampling tick: the
sample history never exceeds 100 entries and the sustain window never exceeds
5, eviction in both is FIFO (the oldest entry, the list head, is removed
first), peak_score never decreases at a tick, and over any run started from
the post-start state peak_score equals the maximum score emitted so far. -/
theorem c3_session_statistics_invariants :
    (∀ (s : MonitorState) (t : ℚ) (n : ℤ), s.performance_scores.length ≤ 100 →
      (monitor_tick s t n).1.performance_scores.length ≤ 100) ∧
    (∀ (s : MonitorState) (t : ℚ) (n : ℤ), s.recent_scores.length ≤ 5 →
      (monitor_tick s t n).1.recent_scores.length ≤ 5) ∧
    (∀ (l : List ℚ) (x : ℚ) (b : ℕ), l ≠ [] → b < (l ++ [x]).length →
      push_bounded l x b = l.tail ++ [x]) ∧
    (∀ (s : MonitorState) (t : ℚ) (n : ℤ),
      s.peak_score ≤ (monitor_tick s t n).1.peak_score) ∧
    (∀ (t0 : ℚ) (inputs : List (ℚ × ℤ)),
      (monitor_run (monitor_state_after_start t0) inputs).1.peak_score =
        (monitor_run (monitor_state_after_start t0) inputs).2.foldl max 0 ∧
      (∀ y ∈ (monitor_run (monitor_state_after_start t0) inputs).2,
        y ≤ (monitor_run (monitor_state_after_start t0) inputs).1.peak_score) ∧
      ((monitor_run (monitor_state_after_start t0) inputs).2 ≠ [] →
        (monitor_run (monitor_state_after_start t0) inputs).1.peak_score ∈
          (monitor_run (monitor_state_after_start t0) inputs).2)) := by
  refine ⟨monitor_tick_history_bound, monitor_tick_window_bound, push_bounded_evict,
    monitor_tick_peak_mono, ?_⟩
  intro t0 inputs
  have hpk : (monitor_state_after_start t0).peak_score = 0 := rfl
  have hrun := monitor_run_peak (monitor_state_after_start t0) inputs
  rw [hpk] at hrun
  refine ⟨hrun, ?_, ?_⟩
  · intro y hy
    rw [hrun]
    exact mem_le_foldl_max _ 0 y hy
  · intro hne
    rw [hrun]
    rcases foldl_max_mem_or_init (monitor_run (monitor_state_after_start t0) inputs).2 0
      with h0 | hmem
    · obtain ⟨y, hy⟩ := List.exists_mem_of_ne_nil _ hne
      have hy_le := mem_le_foldl_max (monitor_run (monitor_state_after_start t0) inputs).2 0 y hy
      have hy_ge := monitor_run_emitted_nonneg (monitor_state_after_start t0) inputs y hy
      rw [h0] at hy_le
      rw [h0, ← le_antisymm hy_le hy_ge]
      exact hy
    · exact hmem

theorem c3_session_statistics_invariants_witness :
    (((monitor_state_after_start 0).performance_scores.length ≤ 100 ∧
      (monitor_tick (monitor_state_after_start 0) 1 0).1.performance_scores.length ≤ 100) ∧
     ((monitor_state_after_start 0).recent_scores.length ≤ 5 ∧
      (monitor_tick (monitor_state_after_start 0) 1 0).1.recent_scores.length ≤ 5)) ∧
    (([(1 : ℚ), 2] ≠ ([] : List ℚ) ∧ 2 < (([(1 : ℚ), 2]) ++ [3]).length) ∧
      push_bounded [(1 : ℚ), 2] 3 2 = [(2 : ℚ), 3]) ∧
    ((monitor_run (monitor_state_after_start 0) [(1, 0), (2, 2000000)]).2 ≠ [] ∧
      (monitor_run (monitor_state_after_start 0) [(1, 0), (2, 2000000)]).1.peak_score ∈
        (monitor_run (monitor_state_after_start 0) [(1, 0), (2, 2000000)]).2) := by
  refine ⟨⟨⟨by decide, c3_session_statistics_invariants.1 (monitor_state_after_start 0) 1 0
      (by decide)⟩,
    ⟨by decide, c3_session_statistics_invariants.2.1 (monitor_state_after_start 0) 1 0
      (by decide)⟩⟩, ⟨⟨by decide, by decide⟩, ?_⟩, ⟨by decide, ?_⟩⟩
  · rw [c3_session_statistics_invariants.2.2.1 [(1 : ℚ), 2] 3 2 (by decide) (by decide)]
    rfl
  · exact (c3_session_statistics_invariants.2.2.2.2 0 [(1, 0), (2, 2000000)]).2.2 (by decide)

/-- C4 as stated is false on the code: start_test itself sets
last_ops_time = time.time() (line 209) before the monitor thread starts, so on
the very first executed sampling tick the baseline branch of lines 295-298 is
not taken — a sample IS emitted and the history becomes nonempty.  Here, from
the post-start state with start time 0, the first tick at time 1 with
total_ops = 0 emits a sample. -/
theorem c4_counterexample_first_tick_emits :
    (monitor_tick (monitor_state_after_start 0) 1 0).2 ≠ none ∧
    (monitor_tick (monitor_state_after_start 0) 1 0).1.performance_scores ≠ [] := by
  decide

/-- C4 amended: the store-baseline-and-skip branch of the sampling tick runs
exactly when last_ops_time is None; but start_test itself stores the baseline
(last_total_ops = 0, last_ops_time = the start time) before the monitor thread
begins, so the very first executed sampling tick after start takes the normal
path: it computes a score from the start-time baseline and emits that sample
into the history. -/
theorem c4_first_tick_behavior :
    (∀ (s : MonitorState) (t : ℚ) (n : ℤ), s.last_ops_time = none →
      monitor_tick s t n =
        ({ s with last_ops_time := some t, last_total_ops := n }, none)) ∧
    (∀ t0 : ℚ, (monitor_state_after_start t0).last_ops_time = some t0 ∧
      (monitor_state_after_start t0).last_total_ops = 0) ∧
    (∀ (t0 t : ℚ) (n : ℤ),
      (monitor_tick (monitor_state_after_start t0) t n).2 =
        some (power_score_of n 0 (t - t0)) ∧
      (monitor_tick (monitor_state_after_start t0) t n).1.performance_scores =
        [power_score_of n 0 (t - t0)]) := by
  refine ⟨?_, fun t0 => ⟨rfl, rfl⟩, ?_⟩
  · intro s t n h
    unfold monitor_tick
    rw [h]
  · intro t0 t n
    constructor
    · rfl
    · rfl

theorem c4_first_tick_behavior_witness :
    (MonitorState.last_ops_time ⟨0, none, 0, [], []⟩ = none ∧
      monitor_tick ⟨0, none, 0, [], []⟩ 3 7 = (⟨7, some 3, 0, [], []⟩, none)) := by
  refine ⟨rfl, ?_⟩
  exact c4_first_tick_behavior.1 ⟨0, none, 0, [], []⟩ 3 7 rfl

/-! ## Controller lifecycle (start_test, lines 180-221; stop_test, lines 223-276)

A worker process as the OS sees it.  exits_within_grace records whether, once
its stop event has been set, the process exits by itself during the bounded
2-second join budget of the cleanup — an environmental scheduling fact fixed
per worker, not code. -/

structure Worker where
  alive : Bool
  stop_signaled : Bool
  exits_within_grace : Bool
  deriving Repr, DecidableEq

/-- The CPUStressTestWindow fields touched by start_test/stop_test.  The
Tk widgets (labels, buttons, combobox states) are external collaborators and
are not modelled. -/
structure ControllerState where
  testing : Bool
  processes : List Worker
  stop_events : List Bool
  counters : List ℕ
  performance_scores : List ℚ
  test_start_time : Option ℚ
  last_score_time : ℚ
  last_total_ops : ℤ
  last_ops_time : Option ℚ
  peak_score : ℚ
  recent_scores : List ℚ
  deriving Repr, DecidableEq

inductive StartOutcome
  | noOp
  | spawnError
  | started (n : ℕ)
  deriving Repr, DecidableEq

/-- num_threads = int(self.thread_var.get()) with ValueError falling back to
self.cpu_count (lines 192-195).  thread_var models the parse outcome of the
combobox string: some n when int() succeeds with value n, none when it raises
ValueError. -/
def parsed_num_threads (thread_var : Option ℤ) (cpu_count : ℕ) : ℤ :=
  match thread_var with
  | some n => n
  | none => (cpu_count : ℤ)

/-- The spawn loop of lines 199-206: for each index, create a stop event and a
counter, then start the process; appending to stop_events / processes /
counters happens only after a successful proc.start().  The oracle spawn
models the environment: none means Process creation or start raises (the
exception escapes the loop — there is no try/except around it), some g means
the process started and will behave as a worker with exits_within_grace = g. -/
def spawn_loop (spawn : ℕ → Option Bool) : ℕ → ℕ → ControllerState → ControllerState × Bool
  | _, 0, s => (s, false)
  | i, Nat.succ k, s =>
      match spawn i with
      | none => (s, true)
      | some g =>
          spawn_loop spawn (i + 1) k
            { s with
              processes := s.processes ++ [⟨true, false, g⟩],
              stop_events := s.stop_events ++ [false],
              counters := s.counters ++ [0] }

/-- start_test (lines 180-221).  Returns at once when a test is already
running (lines 182-183).  Otherwise it marks the session as testing, clears
processes / stop_events / performance_scores, records the start timestamp and
resets last_score_time (lines 185-190; counters is NOT cleared here), parses
the requested count (lines 192-195), and runs the spawn loop — note there is
no clamping of num_threads, and range(n) is empty for n ≤ 0.  If a spawn
raises, the exception propagates and the statistics resets of lines 208-211
never run; otherwise the ops baseline, peak and sustain window are reset and
the monitor thread is started.  Both time.time() calls of lines 189 and 209
are modelled by the single timestamp now. -/
def start_test (s : ControllerState) (thread_var : Option ℤ) (cpu_count : ℕ)
    (spawn : ℕ → Option Bool) (now : ℚ) : ControllerState × StartOutcome :=
  if s.testing then (s, .noOp)
  else
    match spawn_loop spawn 0 (parsed_num_threads thread_var cpu_count).toNat
      { s with testing := true, processes := [], stop_events := [],
               performance_scores := [], test_start_time := some now,
               last_score_time := 0 } with
    | (s2, true) => (s2, .spawnError)
    | (s2, false) =>
        ({ s2 with last_total_ops := 0, last_ops_time := some now, peak_score := 0,
                   recent_scores := [] },
         .started (parsed_num_threads thread_var cpu_count).toNat)

inductive StopReport
  | completed (avg max_score duration : ℚ)
  | stoppedNoData
  deriving Repr, DecidableEq

/-- The final score report of lines 257-272: when performance_scores is
nonempty, its average (sum(...)/len(...)), its maximum (max(...)) and the
elapsed duration are reported; otherwise the stopped (no data) outcome.  In
the code path with nonempty scores test_start_time is always set; getD 0 is
never reached there. -/
def final_report (scores : List ℚ) (now : ℚ) (start_time : Option ℚ) : StopReport :=
  match scores with
  | [] => .stoppedNoData
  | h :: t =>
      .completed ((h :: t).sum / ((h :: t).length : ℚ)) (t.foldl max h)
        (now - start_time.getD 0)

def signal_stop (w : Worker) : Worker := { w with stop_signaled := true }

/-- A signaled worker whose environment lets it exit within the grace window
leaves its loop (after at most one more batch) and dies on its own; joining
only waits for this, it does not kill. -/
def exit_on_signal (w : Worker) : Worker :=
  if w.stop_signaled && w.exits_within_grace then { w with alive := false } else w

/-- p.terminate() applied by the straggler sweep of lines 244-250 to each
process of the list the cleanup thread iterates. -/
def terminate_if_alive (w : Worker) : Worker :=
  if w.alive then { w with alive := false } else w

/-- stop_test (lines 223-276).  A no-op when no test is running (lines
225-226).  Otherwise: every stop event is set (lines 230-231); the cleanup
closure is handed the very list object self.processes (line 251) which the
main thread clears immediately afterwards (line 253) — cleared_before_cleanup
says whether the clear won that race, in which case the cleanup thread
iterates an empty list and its straggler sweep terminates nothing, so only the
workers that exit on their own die.  The controller's processes / stop_events
/ counters lists are cleared and the final report computed (lines 253-272).
Returns the controller state, the final OS-level worker statuses, and the
report (none for the no-op path). -/
def stop_test (s : ControllerState) (cleared_before_cleanup : Bool) (now : ℚ) :
    ControllerState × List Worker × Option StopReport :=
  if ¬ s.testing then (s, s.processes, none)
  else
    ({ s with testing := false, processes := [], stop_events := [], counters := [] },
      (if cleared_before_cleanup
        then (s.processes.map signal_stop).map exit_on_signal
        else ((s.processes.map signal_stop).map exit_on_signal).map terminate_if_alive),
      some (final_report s.performance_scores now s.test_start_time))

/-- A session state with no test running and all lists empty (the state left
by __init__, lines 104-119, with monitor fields at their initial values). -/
def idle_state : ControllerState :=
  { testing := false, processes := [], stop_events := [], counters := [],
    performance_scores := [], test_start_time := none, last_score_time := 0,
    last_total_ops := 0, last_ops_time := none, peak_score := 0, recent_scores := [] }

/-- A running session owning a single worker that never exits within the grace
window (spec Scenario B: a worker that does not observe the stop signal in
time). -/
def c5_running_state : ControllerState :=
  { testing := true,
    processes := [(⟨true, false, false⟩ : Worker)],
    stop_events := [false], counters := [0],
    performance_scores := [], test_start_time := some 0, last_score_time := 0,
    last_total_ops := 0, last_ops_time := some 0, peak_score := 0,
    recent_scores := [] }

/-- The spawn environment of the C6 scenario: the first worker starts
successfully, spawning the second raises. -/
def c6_spawn_env : ℕ → Option Bool := fun i => if i = 0 then some true else none

/-- A running session that has collected no samples yet. -/
def running_no_data_state : ControllerState :=
  { testing := true,
    processes := [(⟨true, false, true⟩ : Worker)],
    stop_events := [false], counters := [0],
    performance_scores := [], test_start_time := some 0, last_score_time := 0,
    last_total_ops := 0, last_ops_time := some 0, peak_score := 0,
    recent_scores := [] }

/-! ## Controller lemmas -/

lemma spawn_loop_all_ok (k : ℕ) : ∀ (i : ℕ) (s : ControllerState),
    (spawn_loop (fun _ => some true) i k s).2 = false ∧
    (spawn_loop (fun _ => some true) i k s).1.processes.length =
      s.processes.length + k ∧
    (spawn_loop (fun _ => some true) i k s).1.testing = s.testing := by
  induction k with
  | zero => intro i s; exact ⟨rfl, rfl, rfl⟩
  | succ n ih =>
    intro i s
    have h := ih (i + 1)
      { s with processes := s.processes ++ [⟨true, false, true⟩],
               stop_events := s.stop_events ++ [false],
               counters := s.counters ++ [0] }
    simp only [spawn_loop] at h ⊢
    refine ⟨h.1, ?_, h.2.2⟩
    rw [h.2.1]
    simp only [List.length_append, List.length_singleton]
    omega

lemma start_test_all_ok (s : ControllerState) (tv : Option ℤ) (cpu : ℕ) (now : ℚ)
    (h : s.testing = false) :
    (start_test s tv cpu (fun _ => some true) now).2 =
      .started (parsed_num_threads tv cpu).toNat ∧
    (start_test s tv cpu (fun _ => some true) now).1.processes.length =
      (parsed_num_threads tv cpu).toNat ∧
    (start_test s tv cpu (fun _ => some true) now).1.testing = true := by
  unfold start_test
  rw [if_neg (by rw [h]; simp)]
  have hok := spawn_loop_all_ok (parsed_num_threads tv cpu).toNat 0
    { s with testing := true, processes := [], stop_events := [],
             performance_scores := [], test_start_time := some now,
             last_score_time := 0 }
  rcases hspawn : spawn_loop (fun _ => some true) 0 (parsed_num_threads tv cpu).toNat
    { s with testing := true, processes := [], stop_events := [],
             performance_scores := [], test_start_time := some now,
             last_score_time := 0 } with ⟨s2, b⟩
  rw [hspawn] at hok
  have hb : b = false := hok.1
  subst hb
  have hlen : s2.processes.length = (parsed_num_threads tv cpu).toNat := by
    have := hok.2.1
    simpa using this
  have htest : s2.testing = true := hok.2.2
  exact ⟨rfl, hlen, htest⟩

/-! ## Theorems for claims C5 - C10 -/

/-- C5 describes the intended cleanup, but the code passes the very list
object self.processes to the cleanup thread (line 251) and then clears it
(line 253).  Under the legal (and typical) schedule in which the clear wins
the race, the cleanup thread iterates an empty list: no worker is joined and
the straggler sweep terminates nothing, so a worker that does not exit within
the grace window is still alive after stop_test and its cleanup complete,
even though the controller's handle lists are empty — refuting the claim that
no worker process remains alive. -/
theorem c5_stop_cleanup_defect :
    (stop_test c5_running_state true 10).1.testing = false ∧
    (stop_test c5_running_state true 10).1.processes = [] ∧
    (stop_test c5_running_state true 10).1.stop_events = [] ∧
    (stop_test c5_running_state true 10).1.counters = [] ∧
    (stop_test c5_running_state true 10).2.1 = [(⟨true, true, false⟩ : Worker)] ∧
    (stop_test c5_running_state true 10).2.1.any (fun w => w.alive) = true := by
  decide

/-- C6: the spawn loop of start_test (lines 199-206) has no exception
handling and no teardown.  When spawning the second of two workers raises,
the exception propagates with the first worker still alive and registered in
self.processes, and self.testing still True — the partially-spawned set is
not torn down and the session does not return to Idle, refuting the claim. -/
theorem c6_spawn_failure_leaves_orphan :
    (start_test idle_state (some 2) 8 c6_spawn_env 0).2 = .spawnError ∧
    (start_test idle_state (some 2) 8 c6_spawn_env 0).1.testing = true ∧
    (start_test idle_state (some 2) 8 c6_spawn_env 0).1.processes =
      [(⟨true, false, true⟩ : Worker)] ∧
    (start_test idle_state (some 2) 8 c6_spawn_env 0).1.processes.any
      (fun w => w.alive) = true := by
  decide

/-- C7 as stated is false: start_test never clamps the parsed worker count.
With the integer input 0 (and every spawn succeeding), the spawn loop runs
zero times: the session enters testing with no workers at all, so the number
of spawned workers is not in [1, logical_core_count]. -/
theorem c7_counterexample_zero_spawns :
    (start_test idle_state (some 0) 8 (fun _ => some true) 0).2 = .started 0 ∧
    (start_test idle_state (some 0) 8 (fun _ => some true) 0).1.processes.length = 0 ∧
    (start_test idle_state (some 0) 8 (fun _ => some true) 0).1.testing = true ∧
    ¬ (1 ≤ (start_test idle_state (some 0) 8 (fun _ => some true) 0).1.processes.length ∧
        (start_test idle_state (some 0) 8 (fun _ => some true) 0).1.processes.length ≤ 8) := by
  decide

/-- C7 amended: start_test uses the parsed integer unclamped.  For any
integer input n it iterates the spawn loop max(0, n) times (range(n) is empty
for n ≤ 0), so inputs ≤ 0 spawn no workers and inputs above the logical core
count spawn more than core-count workers; the operation is total (no crash on
any integer input); only a non-integer input falls back to the core count. -/
theorem c7_worker_count_not_clamped :
    ∀ (s : ControllerState) (tv : Option ℤ) (cpu : ℕ) (now : ℚ), s.testing = false →
      (start_test s tv cpu (fun _ => some true) now).2 =
        .started (parsed_num_threads tv cpu).toNat ∧
      (start_test s tv cpu (fun _ => some true) now).1.processes.length =
        (parsed_num_threads tv cpu).toNat := by
  intro s tv cpu now h
  have := start_test_all_ok s tv cpu now h
  exact ⟨this.1, this.2.1⟩

theorem c7_worker_count_not_clamped_witness :
    idle_state.testing = false ∧
    (start_test idle_state (some 12) 8 (fun _ => some true) 0).2 = .started 12 ∧
    (start_test idle_state (some 12) 8 (fun _ => some true) 0).1.processes.length = 12 := by
  refine ⟨rfl, ?_⟩
  exact c7_worker_count_not_clamped idle_state (some 12) 8 0 rfl

/-- C8: stop_test is idempotent — called with no test running it returns at
lines 225-226 leaving the whole state unchanged and producing no report — and
when a running test has collected no samples the final report is the stopped
(no data) outcome of line 271, computed without any average or maximum, so the
zero-length sample list is never divided by. -/
theorem c8_stop_idempotent_no_data :
    (∀ (s : ControllerState) (b : Bool) (now : ℚ), s.testing = false →
      stop_test s b now = (s, s.processes, none)) ∧
    (∀ (s : ControllerState) (b : Bool) (now : ℚ), s.testing = true →
      s.performance_scores = [] →
      (stop_test s b now).2.2 = some .stoppedNoData) := by
  constructor
  · intro s b now h
    unfold stop_test
    rw [if_pos (by rw [h]; simp)]
  · intro s b now h hscores
    unfold stop_test
    rw [if_neg (by rw [h]; simp)]
    show some (final_report s.performance_scores now s.test_start_time) =
      some StopReport.stoppedNoData
    rw [hscores]
    rfl

theorem c8_stop_idempotent_no_data_witness :
    (idle_state.testing = false ∧
      stop_test idle_state true 5 = (idle_state, idle_state.processes, none)) ∧
    (running_no_data_state.testing = true ∧ running_no_data_state.performance_scores = [] ∧
      (stop_test running_no_data_state false 5).2.2 = some .stoppedNoData) :=
  ⟨⟨rfl, c8_stop_idempotent_no_data.1 idle_state true 5 rfl⟩,
   ⟨rfl, rfl, c8_stop_idempotent_no_data.2 running_no_data_state false 5 rfl rfl⟩⟩

/-- C9: calling start_test while a test is already running returns at lines
182-183 before touching anything: no workers are spawned and every field of
the session state is unchanged, so the prior session's workers are neither
leaked nor replaced. -/
theorem c9_start_while_running_noop :
    ∀ (s : ControllerState) (tv : Option ℤ) (cpu : ℕ) (spawn : ℕ → Option Bool)
      (now : ℚ), s.testing = true →
      start_test s tv cpu spawn now = (s, .noOp) := by
  intro s tv cpu spawn now h
  unfold start_test
  rw [if_pos h]

theorem c9_start_while_running_noop_witness :
    running_no_data_state.testing = true ∧
    start_test running_no_data_state (some 4) 8 (fun _ => some true) 7 =
      (running_no_data_state, .noOp) :=
  ⟨rfl, c9_start_while_running_noop running_no_data_state (some 4) 8
    (fun _ => some true) 7 rfl⟩

/-- C10: when the requested worker-count input does not parse as an integer
(int() raises ValueError), start_test does not fail or reject the request: it
falls back to self.cpu_count (line 195) and spawns that many workers. -/
theorem c10_non_integer_input_falls_back :
    ∀ (s : ControllerState) (cpu : ℕ) (now : ℚ), s.testing = false →
      (start_test s none cpu (fun _ => some true) now).2 = .started cpu ∧
      (start_test s none cpu (fun _ => some true) now).1.processes.length = cpu ∧
      (start_test s none cpu (fun _ => some true) now).1.testing = true := by
  intro s cpu now h
  have hcpu : (parsed_num_threads none cpu).toNat = cpu := Int.toNat_natCast cpu
  have := start_test_all_ok s none cpu now h
  rw [hcpu] at this
  exact this

theorem c10_non_integer_input_falls_back_witness :
    idle_state.testing = false ∧
    (start_test idle_state none 4 (fun _ => some true) 0).2 = .started 4 ∧
    (start_test idle_state none 4 (fun _ => some true) 0).1.processes.length = 4 :=
  ⟨rfl, (c10_non_integer_input_falls_back idle_state 4 0 rfl).1,
    (c10_non_integer_input_falls_back idle_state 4 0 rfl).2.1⟩

end StressTest
